import Mathlib

/-!
Verification of the configuration-validation layer of the esphome
statistics and statistics_distribution components.

Python configuration dictionaries are embedded as Lean structures with
Option-typed fields (a field is `none` exactly when the key is absent from
the YAML configuration).  Validators that raise `cv.Invalid` are embedded
as functions into `Except String`.  Python strings manipulated by the
unit-of-measurement transforms are embedded as lists of characters.
-/

namespace Esphome

/-- Truth value of an Except-valued validation: true exactly when the
validator returned a value instead of raising. -/
def isOk {ε α : Type} : Except ε α → Bool
  | .ok _ => true
  | .error _ => false

/-!  ### Window configuration dictionaries (statistics/sensor.py)  -/

/-- A window configuration dictionary.  Each field is one of the keys that
the four window schemas of statistics/sensor.py may mention; `none` means
the key is absent.  Durations stand for parsed time periods in
milliseconds. -/
structure WindowConfig where
  window_size : Option Int := none
  window_duration : Option Int := none
  chunk_size : Option Int := none
  chunk_duration : Option Int := none
  send_every : Option Int := none
  send_first_at : Option Int := none
  restore : Option Bool := none

/-!  ### Primitive validators of the esphome `cv` module

The `cv` module (esphome/config_validation.py) is part of the repository
but not under src/; the primitives below are modelled from the spec. -/

/-- Modelled from the spec: `cv.positive_not_null_int` (configuration
validation layer, not under src/) accepts an integer strictly greater
than zero and rejects everything else. -/
def positive_not_null_int (value : Int) : Except String Int :=
  if 0 < value then .ok value else .error "int must be greater than 0"

/-- Modelled from the spec: `cv.positive_int` (configuration validation
layer, not under src/) accepts an integer greater than or equal to zero. -/
def positive_int (value : Int) : Except String Int :=
  if 0 ≤ value then .ok value else .error "int must be at least 0"

/-- Modelled from the spec: `cv.time_period` (configuration validation
layer, not under src/) parses a time period; here the already parsed
period in milliseconds is passed through. -/
def time_period (value : Int) : Except String Int :=
  .ok value

/-- Modelled from the spec: `cv.boolean` (configuration validation layer,
not under src/) passes a boolean through. -/
def boolean (value : Bool) : Except String Bool :=
  .ok value

/-- Modelled from the spec: `cv.int_range(min, max)` (configuration
validation layer, not under src/) accepts an integer inside the inclusive
range and rejects everything else; used for the digest capacity check. -/
def int_range (lo hi value : Int) : Except String Int :=
  if lo ≤ value ∧ value ≤ hi then .ok value else .error "int out of range"

/-- Modelled from the spec: `cv.float_range(min, max)` (configuration
validation layer, not under src/) accepts a number inside the inclusive
range; numbers are embedded as rationals. -/
def float_range (lo hi value : ℚ) : Except String ℚ :=
  if lo ≤ value ∧ value ≤ hi then .ok value else .error "float out of range"

/-- Modelled from the spec: the Python str.upper method, upper-casing every
character of the string. -/
def upper (s : String) : String :=
  ⟨s.data.map Char.toUpper⟩

/-- Modelled from the spec: `cv.enum(options, upper=True)` (configuration
validation layer, not under src/) upper-cases the given string and
accepts it exactly when the result is one of the option keys, returning
the normalized key. -/
def enum_upper (options : List String) (value : String) : Except String String :=
  if upper value ∈ options then .ok (upper value)
  else .error "value is not a valid option"

/-- Modelled from the spec: a `cv.Required(key)` schema entry fails when
the key is absent and otherwise validates the present value. -/
def requiredKey {α : Type} (value : Option α) (validator : α → Except String α) :
    Except String α :=
  match value with
  | none => .error "required key not provided"
  | some v => validator v

/-- Modelled from the spec: a `cv.Optional(key, default=d)` schema entry
inserts the default when the key is absent and validates the resulting
value. -/
def optionalKeyD {α : Type} (value : Option α) (dflt : α)
    (validator : α → Except String α) : Except String α :=
  validator (value.getD dflt)

/-- Modelled from the spec: a `cv.Optional(key)` schema entry with no
default leaves an absent key absent and validates a present value. -/
def optionalKey {α : Type} (value : Option α) (validator : α → Except String α) :
    Except String (Option α) :=
  match value with
  | none => .ok none
  | some v => (validator v).map some

/-- Modelled from the spec: `cv.has_exactly_one_key(k1, k2)` accepts the
configuration exactly when exactly one of the two keys is present. -/
def has_exactly_one_key (k1Present k2Present : Bool) (config : WindowConfig) :
    Except String WindowConfig :=
  if k1Present != k2Present then .ok config
  else .error "must contain exactly one of the two keys"

/-- Modelled from the spec: `cv.has_at_least_one_key(k1, k2)` accepts the
configuration exactly when at least one of the two keys is present. -/
def has_at_least_one_key (k1Present k2Present : Bool) (config : WindowConfig) :
    Except String WindowConfig :=
  if k1Present || k2Present then .ok config
  else .error "must contain at least one of the two keys"

/-!  ### validate_send_first_at and the four window schemas
(statistics/sensor.py, lines 192-299)  -/

/-- Embedding of `validate_send_first_at` (statistics/sensor.py lines
192-200): reads send_first_at with `.get` (absent gives none) and
send_every by direct indexing (absent raises a KeyError); when
send_every is positive and a present send_first_at exceeds it, raises
cv.Invalid; otherwise returns the configuration unchanged. -/
def validate_send_first_at (config : WindowConfig) : Except String WindowConfig :=
  match config.send_every with
  | none => .error "KeyError: send_every"
  | some send_every =>
    if 0 < send_every then
      match config.send_first_at with
      | some send_first_at =>
        if send_every < send_first_at then
          .error "send_first_at must be smaller than or equal to send_every!"
        else .ok config
      | none => .ok config
    else .ok config

/-- Embedding of SLIDING_WINDOW_SCHEMA (statistics/sensor.py lines
248-255): required window_size (positive, nonzero), send_every and
send_first_at defaulting to 1 (positive, nonzero), then
validate_send_first_at. -/
def SLIDING_WINDOW_SCHEMA (config : WindowConfig) : Except String WindowConfig := do
  let window_size ← requiredKey config.window_size positive_not_null_int
  let send_every ← optionalKeyD config.send_every 1 positive_not_null_int
  let send_first_at ← optionalKeyD config.send_first_at 1 positive_not_null_int
  validate_send_first_at { config with
    window_size := some window_size,
    send_every := some send_every,
    send_first_at := some send_first_at }

/-- Embedding of CHUNKED_SLIDING_WINDOW_SCHEMA (statistics/sensor.py
lines 257-269): the inner schema followed by
has_exactly_one_key(chunk_size, chunk_duration). -/
def CHUNKED_SLIDING_WINDOW_SCHEMA (config : WindowConfig) :
    Except String WindowConfig := do
  let window_size ← requiredKey config.window_size positive_not_null_int
  let chunk_size ← optionalKey config.chunk_size positive_not_null_int
  let chunk_duration ← optionalKey config.chunk_duration time_period
  let send_every ← optionalKeyD config.send_every 1 positive_not_null_int
  let send_first_at ← optionalKeyD config.send_first_at 1 positive_not_null_int
  let validated ← validate_send_first_at { config with
    window_size := some window_size,
    chunk_size := chunk_size,
    chunk_duration := chunk_duration,
    send_every := some send_every,
    send_first_at := some send_first_at }
  has_exactly_one_key validated.chunk_size.isSome validated.chunk_duration.isSome
    validated

/-- Embedding of CONTINUOUS_WINDOW_SCHEMA (statistics/sensor.py lines
271-282): optional window_size (send_every only needs to be
nonnegative here), then validate_send_first_at, then
has_at_least_one_key(window_size, window_duration). -/
def CONTINUOUS_WINDOW_SCHEMA (config : WindowConfig) :
    Except String WindowConfig := do
  let window_size ← optionalKey config.window_size positive_int
  let window_duration ← optionalKey config.window_duration time_period
  let send_every ← optionalKeyD config.send_every 1 positive_int
  let send_first_at ← optionalKeyD config.send_first_at 1 positive_not_null_int
  let validated ← validate_send_first_at { config with
    window_size := window_size,
    window_duration := window_duration,
    send_every := some send_every,
    send_first_at := some send_first_at }
  has_at_least_one_key validated.window_size.isSome validated.window_duration.isSome
    validated

/-- Embedding of CHUNKED_CONTINUOUS_WINDOW_SCHEMA (statistics/sensor.py
lines 284-299): the inner schema, then
has_at_least_one_key(window_size, window_duration), then
has_exactly_one_key(chunk_size, chunk_duration). -/
def CHUNKED_CONTINUOUS_WINDOW_SCHEMA (config : WindowConfig) :
    Except String WindowConfig := do
  let window_size ← optionalKey config.window_size positive_int
  let window_duration ← optionalKey config.window_duration time_period
  let chunk_size ← optionalKey config.chunk_size positive_not_null_int
  let chunk_duration ← optionalKey config.chunk_duration time_period
  let send_every ← optionalKeyD config.send_every 1 positive_int
  let send_first_at ← optionalKeyD config.send_first_at 1 positive_not_null_int
  let restore ← optionalKey config.restore boolean
  let validated ← validate_send_first_at { config with
    window_size := window_size,
    window_duration := window_duration,
    chunk_size := chunk_size,
    chunk_duration := chunk_duration,
    send_every := some send_every,
    send_first_at := some send_first_at,
    restore := restore }
  let validated2 ← has_at_least_one_key validated.window_size.isSome
    validated.window_duration.isSome validated
  has_exactly_one_key validated2.chunk_size.isSome validated2.chunk_duration.isSome
    validated2

/-!  ### statistics_distribution/sensor.py configuration entries  -/

/-- Embedding of SCALE_FUNCTION_OPTIONS (statistics_distribution/sensor.py
lines 31-35): the keys of the scale-function option table. -/
def SCALE_FUNCTION_OPTIONS : List String := ["K1", "K2", "K3"]

/-- Embedding of the digest_size entry of CONFIG_SCHEMA
(statistics_distribution/sensor.py line 79):
`cv.Optional(CONF_DIGEST_SIZE, default=100): cv.int_range(min=20, max=511)`. -/
def digest_size_schema (value : Option Int) : Except String Int :=
  int_range 20 511 (value.getD 100)

/-- Embedding of the scale_function entry of CONFIG_SCHEMA
(statistics_distribution/sensor.py lines 80-82):
`cv.Optional(CONF_SCALE_FUNCTION, default="K3"):
cv.enum(SCALE_FUNCTION_OPTIONS, upper=True)`. -/
def scale_function_schema (value : Option String) : Except String String :=
  enum_upper SCALE_FUNCTION_OPTIONS (value.getD "K3")

/-- Embedding of the quantile entry of QUANTILE_SENSOR_SCHEMA
(statistics_distribution/sensor.py lines 64-68):
`cv.Required("quantile"): cv.float_range(min=0, max=1)`. -/
def quantile_schema (value : Option ℚ) : Except String ℚ :=
  match value with
  | none => .error "required key quantile not provided"
  | some q => float_range 0 1 q

/-!  ### Property-inheritance transforms (statistics/sensor.py lines
130-242).  Python strings are embedded as lists of characters.  -/

/-- The part of the validated statistics configuration the inheritance
transforms read: the configured time unit (a key of
TIME_CONVERSION_FACTORS, as a character list). -/
structure InheritConfig where
  time_unit : List Char

/-- Embedding of transform_covariance_unit_of_measurement
(statistics/sensor.py lines 167-171): when the source unit ends in
"/" + time_unit that ending is sliced off, otherwise "⋅" + time_unit is
appended. -/
def transform_covariance_unit_of_measurement (uom : List Char)
    (config : InheritConfig) : List Char :=
  let slash_time := '/' :: config.time_unit
  if slash_time.isSuffixOf uom then uom.take (uom.length - slash_time.length)
  else uom ++ '⋅' :: config.time_unit

/-- Embedding of transform_variance_unit_of_measurement
(statistics/sensor.py lines 175-176): wraps the source unit in
parentheses and appends the squared sign. -/
def transform_variance_unit_of_measurement (uom : List Char)
    (config : InheritConfig) : List Char :=
  '(' :: uom ++ [')', '²']

/-- Embedding of transform_trend_unit_of_measurement
(statistics/sensor.py lines 180-182): appends "/" + time_unit to the
source unit. -/
def transform_trend_unit_of_measurement (uom : List Char)
    (config : InheritConfig) : List Char :=
  uom ++ '/' :: config.time_unit

/-- Embedding of transform_accuracy_decimals (statistics/sensor.py lines
187-188): adds 2 to the source accuracy decimals. -/
def transform_accuracy_decimals (decimals : Int) (config : InheritConfig) : Int :=
  decimals + 2

/-- Embedding of SENSOR_LIST_WITH_SAME_ACCURACY_DECIMALS
(statistics/sensor.py lines 147-151). -/
def SENSOR_LIST_WITH_SAME_ACCURACY_DECIMALS : List String :=
  ["max", "mean", "min"]

/-- Embedding of SENSOR_LIST_WITH_INCREASED_ACCURACY_DECIMALS
(statistics/sensor.py lines 153-158). -/
def SENSOR_LIST_WITH_INCREASED_ACCURACY_DECIMALS : List String :=
  ["covariance", "std_dev", "trend", "variance"]

/-- Modelled from the spec: `inherit_property_from`
(esphome/core/entity_helpers.py, not under src/) copies a property from
the source sensor, applying the given transform when one is supplied.
FINAL_VALIDATE_SCHEMA (statistics/sensor.py lines 230-242 and 369-389)
wires transform_accuracy_decimals to every statistic in
SENSOR_LIST_WITH_INCREASED_ACCURACY_DECIMALS and an identity copy to
every statistic in SENSOR_LIST_WITH_SAME_ACCURACY_DECIMALS, giving this
static mapping from statistic name and source accuracy decimals to the
inherited accuracy decimals. -/
def inherited_accuracy_decimals (stat : String) (decimals : Int)
    (config : InheritConfig) : Option Int :=
  if stat ∈ SENSOR_LIST_WITH_INCREASED_ACCURACY_DECIMALS then
    some (transform_accuracy_decimals decimals config)
  else if stat ∈ SENSOR_LIST_WITH_SAME_ACCURACY_DECIMALS then
    some decimals
  else none

/-!  ### Helper lemmas about the Except pipeline  -/

@[simp]
theorem error_bind {α β : Type} (e : String) (f : α → Except String β) :
    (Except.error e >>= f) = (Except.error e : Except String β) := rfl

@[simp]
theorem ok_bind {α β : Type} (a : α) (f : α → Except String β) :
    (Except.ok a >>= f) = f a := rfl

@[simp]
theorem isOk_ok {α : Type} (a : α) : isOk (Except.ok a : Except String α) = true := rfl

@[simp]
theorem isOk_error {α : Type} (e : String) :
    isOk (Except.error e : Except String α) = false := rfl

theorem isOk_bind {α β : Type} (x : Except String α) (f : α → Except String β) :
    isOk (x >>= f) = true ↔ ∃ a, x = Except.ok a ∧ isOk (f a) = true := by
  cases x with
  | error e => simp
  | ok a =>
    simp only [ok_bind]
    constructor
    · intro h
      exact ⟨a, rfl, h⟩
    · rintro ⟨b, hb, h⟩
      injection hb with hb
      exact hb ▸ h

theorem validate_send_first_at_ok_eq {c d : WindowConfig}
    (h : validate_send_first_at c = Except.ok d) : d = c := by
  unfold validate_send_first_at at h
  split at h
  · exact absurd h (by simp)
  · split at h
    · split at h
      · split at h
        · exact absurd h (by simp)
        · injection h with h
          exact h.symm
      · injection h with h
        exact h.symm
    · injection h with h
      exact h.symm

theorem optionalKey_ok_isSome {α : Type} {v : Option α}
    {f : α → Except String α} {o : Option α}
    (h : optionalKey v f = Except.ok o) : o.isSome = v.isSome := by
  cases v with
  | none =>
    simp only [optionalKey] at h
    injection h with h
    simp [← h]
  | some a =>
    simp only [optionalKey] at h
    cases hf : f a with
    | error e => rw [hf] at h; exact absurd h (by simp [Except.map])
    | ok b =>
      rw [hf] at h
      injection h with h
      simp [← h, Except.map]

theorem optionalKey_none {α : Type} (f : α → Except String α) :
    optionalKey none f = Except.ok none := rfl

theorem has_at_least_one_key_ok_eq {p q : Bool} {c d : WindowConfig}
    (h : has_at_least_one_key p q c = Except.ok d) : d = c := by
  unfold has_at_least_one_key at h
  split at h
  · injection h with h
    exact h.symm
  · exact absurd h (by simp)

theorem isOk_has_exactly_one_key (p q : Bool) (c : WindowConfig) :
    isOk (has_exactly_one_key p q c) = (p != q) := by
  unfold has_exactly_one_key
  by_cases h : (p != q) = true
  · rw [if_pos h, h, isOk_ok]
  · rw [if_neg h, isOk_error]
    simp only [Bool.not_eq_true] at h
    exact h.symm

theorem isOk_has_at_least_one_key (p q : Bool) (c : WindowConfig) :
    isOk (has_at_least_one_key p q c) = (p || q) := by
  unfold has_at_least_one_key
  by_cases h : (p || q) = true
  · rw [if_pos h, h, isOk_ok]
  · rw [if_neg h, isOk_error]
    simp only [Bool.not_eq_true] at h
    exact h.symm

/-!  ### Claim theorems  -/

/-- C1: validate_send_first_at raises an error if and only if send_every is
positive and a present send_first_at value exceeds send_every; whenever it
does not raise, it returns the configuration unchanged (in particular for
every configuration with send_first_at at most send_every, or with
send_every equal to 0). -/
theorem validate_send_first_at_error_iff (c : WindowConfig) (se : Int)
    (h : c.send_every = some se) :
    (isOk (validate_send_first_at c) = false ↔
      0 < se ∧ ∃ v, c.send_first_at = some v ∧ se < v) ∧
    (isOk (validate_send_first_at c) = true →
      validate_send_first_at c = Except.ok c) := by
  have hchar : validate_send_first_at c =
      if 0 < se ∧ ∃ v, c.send_first_at = some v ∧ se < v then
        Except.error "send_first_at must be smaller than or equal to send_every!"
      else Except.ok c := by
    cases hsfa : c.send_first_at with
    | none =>
      simp only [validate_send_first_at, h, hsfa]
      by_cases hpos : 0 < se
      · rw [if_pos hpos, if_neg]
        rintro ⟨-, w, hw, -⟩
        exact Option.noConfusion hw
      · rw [if_neg hpos, if_neg]
        rintro ⟨hp, -⟩
        exact hpos hp
    | some v =>
      simp only [validate_send_first_at, h, hsfa]
      by_cases hpos : 0 < se
      · rw [if_pos hpos]
        by_cases hlt : se < v
        · rw [if_pos hlt, if_pos ⟨hpos, v, rfl, hlt⟩]
        · rw [if_neg hlt, if_neg]
          rintro ⟨-, w, hw, hltw⟩
          injection hw with hw
          exact hlt (hw ▸ hltw)
      · rw [if_neg hpos, if_neg]
        rintro ⟨hp, -⟩
        exact hpos hp
  by_cases hcond : 0 < se ∧ ∃ v, c.send_first_at = some v ∧ se < v
  · refine ⟨?_, ?_⟩
    · rw [hchar, if_pos hcond, isOk_error]
      exact iff_of_true rfl hcond
    · intro hok
      rw [hchar, if_pos hcond, isOk_error] at hok
      exact absurd hok (by simp)
  · refine ⟨?_, ?_⟩
    · rw [hchar, if_neg hcond, isOk_ok]
      exact iff_of_false (by simp) hcond
    · intro _
      rw [hchar, if_neg hcond]

/-- Concrete configuration for the C1 witness. -/
def sched_example_cfg : WindowConfig :=
  { send_every := some 2, send_first_at := some 3 }

/-- C1 witness: the characterization applied to a concrete configuration
with send_every 2 and send_first_at 3. -/
theorem validate_send_first_at_error_iff_witness :
    (isOk (validate_send_first_at sched_example_cfg) = false ↔
      0 < (2 : Int) ∧ ∃ v, sched_example_cfg.send_first_at = some v ∧ (2 : Int) < v) ∧
    (isOk (validate_send_first_at sched_example_cfg) = true →
      validate_send_first_at sched_example_cfg = Except.ok sched_example_cfg) :=
  validate_send_first_at_error_iff sched_example_cfg 2 rfl

/-- C5: the digest_size entry accepts a present value exactly when it lies
in the inclusive range 20 to 511, and an absent value defaults to 100. -/
theorem digest_size_schema_spec :
    (∀ v : Int, isOk (digest_size_schema (some v)) = true ↔ 20 ≤ v ∧ v ≤ 511) ∧
    digest_size_schema none = Except.ok 100 := by
  constructor
  · intro v
    simp only [digest_size_schema, Option.getD_some, int_range]
    by_cases hc : 20 ≤ v ∧ v ≤ 511
    · rw [if_pos hc]
      exact iff_of_true rfl hc
    · rw [if_neg hc]
      exact iff_of_false (by simp) hc
  · rfl

/-- C6: the scale_function entry accepts a present string exactly when its
upper-cased form is K1, K2 or K3; whenever it accepts, the returned value
is the upper-cased form; an absent value defaults to K3. -/
theorem scale_function_schema_spec :
    (∀ s : String, isOk (scale_function_schema (some s)) = true ↔
      (upper s = "K1" ∨ upper s = "K2" ∨ upper s = "K3")) ∧
    (∀ s : String, scale_function_schema (some s) = Except.ok (upper s) ∨
      isOk (scale_function_schema (some s)) = false) ∧
    scale_function_schema none = Except.ok "K3" := by
  refine ⟨?_, ?_, rfl⟩
  · intro s
    have hiff : isOk (scale_function_schema (some s)) = true ↔
        upper s ∈ SCALE_FUNCTION_OPTIONS := by
      simp only [scale_function_schema, Option.getD_some, enum_upper]
      by_cases hmem : upper s ∈ SCALE_FUNCTION_OPTIONS
      · rw [if_pos hmem]
        exact iff_of_true rfl hmem
      · rw [if_neg hmem]
        exact iff_of_false (by simp) hmem
    rw [hiff]
    simp [SCALE_FUNCTION_OPTIONS]
  · intro s
    simp only [scale_function_schema, Option.getD_some, enum_upper]
    by_cases hmem : upper s ∈ SCALE_FUNCTION_OPTIONS
    · left
      rw [if_pos hmem]
    · right
      rw [if_neg hmem, isOk_error]

/-- C7: the required quantile entry accepts a present rational exactly when
it lies in the closed interval from 0 to 1, and rejects an absent value. -/
theorem quantile_schema_spec :
    (∀ q : ℚ, isOk (quantile_schema (some q)) = true ↔ 0 ≤ q ∧ q ≤ 1) ∧
    isOk (quantile_schema none) = false := by
  constructor
  · intro q
    simp only [quantile_schema, float_range]
    by_cases hc : 0 ≤ q ∧ q ≤ 1
    · rw [if_pos hc]
      exact iff_of_true rfl hc
    · rw [if_neg hc]
      exact iff_of_false (by simp) hc
  · rfl

/-- C8: for every source accuracy_decimals value, the covariance, std_dev,
trend and variance sensors inherit the value increased by 2, while the
max, mean and min sensors inherit the value unchanged. -/
theorem inherited_accuracy_decimals_spec (d : Int) (cfg : InheritConfig) :
    inherited_accuracy_decimals "covariance" d cfg = some (d + 2) ∧
    inherited_accuracy_decimals "std_dev" d cfg = some (d + 2) ∧
    inherited_accuracy_decimals "trend" d cfg = some (d + 2) ∧
    inherited_accuracy_decimals "variance" d cfg = some (d + 2) ∧
    inherited_accuracy_decimals "max" d cfg = some d ∧
    inherited_accuracy_decimals "mean" d cfg = some d ∧
    inherited_accuracy_decimals "min" d cfg = some d :=
  ⟨rfl, rfl, rfl, rfl, rfl, rfl, rfl⟩

/-- C9: the variance unit transform wraps the source unit in parentheses
followed by the squared sign, and the trend unit transform appends a
slash and the configured time unit. -/
theorem unit_transform_spec (uom : List Char) (cfg : InheritConfig) :
    transform_variance_unit_of_measurement uom cfg = '(' :: uom ++ [')', '²'] ∧
    transform_trend_unit_of_measurement uom cfg = uom ++ '/' :: cfg.time_unit :=
  ⟨rfl, rfl⟩

/-- C10: applying the covariance unit transform to the output of the trend
unit transform, both with the same configured time unit, recovers the
original unit exactly. -/
theorem covariance_left_inverse_of_trend (uom : List Char) (cfg : InheritConfig) :
    transform_covariance_unit_of_measurement
      (transform_trend_unit_of_measurement uom cfg) cfg = uom := by
  simp only [transform_covariance_unit_of_measurement,
    transform_trend_unit_of_measurement]
  have hsuf : ('/' :: cfg.time_unit).isSuffixOf (uom ++ '/' :: cfg.time_unit) = true := by
    rw [List.isSuffixOf_iff_suffix]
    exact List.suffix_append uom _
  rw [if_pos hsuf]
  have hlen : (uom ++ '/' :: cfg.time_unit).length - ('/' :: cfg.time_unit).length
      = uom.length := by
    simp [List.length_append]
  rw [hlen]
  exact List.take_left uom _

/-- Concrete sliding window configuration with send_every 0. -/
def sliding_zero_cfg : WindowConfig :=
  { window_size := some 5, send_every := some 0 }

/-- Concrete continuous window configuration with send_every 0. -/
def continuous_zero_cfg : WindowConfig :=
  { window_size := some 10, send_every := some 0 }

/-- Concrete chunked continuous window configuration with send_every 0. -/
def chunked_continuous_zero_cfg : WindowConfig :=
  { window_size := some 10, chunk_size := some 2, send_every := some 0 }

/-- C2 counterexample: the sliding window schema rejects a configuration
with send_every = 0, so send_every = 0 is not accepted for every window
type. -/
theorem sliding_rejects_send_every_zero :
    isOk (SLIDING_WINDOW_SCHEMA sliding_zero_cfg) = false := rfl

/-- C2 (amended): send_every = 0 is accepted as a valid configuration
state only by the continuous and chunked_continuous window schemas; the
sliding and chunked_sliding window schemas reject every configuration
with send_every = 0. -/
theorem send_every_zero_acceptance :
    (∀ c : WindowConfig, c.send_every = some 0 →
      isOk (SLIDING_WINDOW_SCHEMA c) = false ∧
      isOk (CHUNKED_SLIDING_WINDOW_SCHEMA c) = false) ∧
    isOk (CONTINUOUS_WINDOW_SCHEMA continuous_zero_cfg) = true ∧
    isOk (CHUNKED_CONTINUOUS_WINDOW_SCHEMA chunked_continuous_zero_cfg) = true := by
  refine ⟨?_, rfl, rfl⟩
  intro c h
  constructor
  · simp only [SLIDING_WINDOW_SCHEMA]
    cases hws : requiredKey c.window_size positive_not_null_int with
    | error e => simp
    | ok ws =>
      simp only [ok_bind]
      rw [h]
      simp [optionalKeyD, positive_not_null_int]
  · simp only [CHUNKED_SLIDING_WINDOW_SCHEMA]
    cases hws : requiredKey c.window_size positive_not_null_int with
    | error e => simp
    | ok ws =>
      simp only [ok_bind]
      cases hcs : optionalKey c.chunk_size positive_not_null_int with
      | error e => simp
      | ok cs =>
        simp only [ok_bind]
        cases hcd : optionalKey c.chunk_duration time_period with
        | error e => simp
        | ok cd =>
          simp only [ok_bind]
          rw [h]
          simp [optionalKeyD, positive_not_null_int]

/-- C2 witness: the rejection half of the amended claim applied to the
concrete sliding configuration with send_every 0. -/
theorem send_every_zero_acceptance_witness :
    isOk (SLIDING_WINDOW_SCHEMA sliding_zero_cfg) = false ∧
    isOk (CHUNKED_SLIDING_WINDOW_SCHEMA sliding_zero_cfg) = false :=
  send_every_zero_acceptance.1 sliding_zero_cfg rfl

/-- Concrete chunked window configuration with neither chunk key. -/
def chunk_none_cfg : WindowConfig :=
  { window_size := some 5 }

/-- C3: each of the two chunked window schemas rejects every configuration
in which chunk_size and chunk_duration are both present or both absent,
so a configuration passes only with exactly one of the two keys. -/
theorem chunk_keys_exactly_one (c : WindowConfig)
    (h : c.chunk_size.isSome = c.chunk_duration.isSome) :
    isOk (CHUNKED_SLIDING_WINDOW_SCHEMA c) = false ∧
    isOk (CHUNKED_CONTINUOUS_WINDOW_SCHEMA c) = false := by
  constructor
  · simp only [CHUNKED_SLIDING_WINDOW_SCHEMA]
    cases hws : requiredKey c.window_size positive_not_null_int with
    | error e => simp
    | ok ws =>
      simp only [ok_bind]
      cases hcs : optionalKey c.chunk_size positive_not_null_int with
      | error e => simp
      | ok cs =>
        simp only [ok_bind]
        cases hcd : optionalKey c.chunk_duration time_period with
        | error e => simp
        | ok cd =>
          simp only [ok_bind]
          cases hse : optionalKeyD c.send_every 1 positive_not_null_int with
          | error e => simp
          | ok se =>
            simp only [ok_bind]
            cases hsfa : optionalKeyD c.send_first_at 1 positive_not_null_int with
            | error e => simp
            | ok sfa =>
              simp only [ok_bind]
              cases hv : validate_send_first_at { c with
                  window_size := some ws,
                  chunk_size := cs,
                  chunk_duration := cd,
                  send_every := some se,
                  send_first_at := some sfa } with
              | error e => simp
              | ok validated =>
                simp only [ok_bind]
                rw [validate_send_first_at_ok_eq hv]
                rw [isOk_has_exactly_one_key]
                simp [optionalKey_ok_isSome hcs, optionalKey_ok_isSome hcd, h]
  · simp only [CHUNKED_CONTINUOUS_WINDOW_SCHEMA]
    cases hws : optionalKey c.window_size positive_int with
    | error e => simp
    | ok ws =>
      simp only [ok_bind]
      cases hwd : optionalKey c.window_duration time_period with
      | error e => simp
      | ok wd =>
        simp only [ok_bind]
        cases hcs : optionalKey c.chunk_size positive_not_null_int with
        | error e => simp
        | ok cs =>
          simp only [ok_bind]
          cases hcd : optionalKey c.chunk_duration time_period with
          | error e => simp
          | ok cd =>
            simp only [ok_bind]
            cases hse : optionalKeyD c.send_every 1 positive_int with
            | error e => simp
            | ok se =>
              simp only [ok_bind]
              cases hsfa : optionalKeyD c.send_first_at 1 positive_not_null_int with
              | error e => simp
              | ok sfa =>
                simp only [ok_bind]
                cases hr : optionalKey c.restore boolean with
                | error e => simp
                | ok r =>
                  simp only [ok_bind]
                  cases hv : validate_send_first_at { c with
                      window_size := ws,
                      window_duration := wd,
                      chunk_size := cs,
                      chunk_duration := cd,
                      send_every := some se,
                      send_first_at := some sfa,
                      restore := r } with
                  | error e => simp
                  | ok validated =>
                    simp only [ok_bind]
                    rw [validate_send_first_at_ok_eq hv]
                    cases hal : has_at_least_one_key
                        ({ c with
                          window_size := ws,
                          window_duration := wd,
                          chunk_size := cs,
                          chunk_duration := cd,
                          send_every := some se,
                          send_first_at := some sfa,
                          restore := r } : WindowConfig).window_size.isSome
                        ({ c with
                          window_size := ws,
                          window_duration := wd,
                          chunk_size := cs,
                          chunk_duration := cd,
                          send_every := some se,
                          send_first_at := some sfa,
                          restore := r } : WindowConfig).window_duration.isSome
                        { c with
                          window_size := ws,
                          window_duration := wd,
                          chunk_size := cs,
                          chunk_duration := cd,
                          send_every := some se,
                          send_first_at := some sfa,
                          restore := r } with
                    | error e => simp
                    | ok validated2 =>
                      simp only [ok_bind]
                      rw [has_at_least_one_key_ok_eq hal]
                      rw [isOk_has_exactly_one_key]
                      simp [optionalKey_ok_isSome hcs, optionalKey_ok_isSome hcd, h]

/-- C3 witness: both chunked schemas reject the concrete configuration
with window_size 5 and neither chunk key. -/
theorem chunk_keys_exactly_one_witness :
    isOk (CHUNKED_SLIDING_WINDOW_SCHEMA chunk_none_cfg) = false ∧
    isOk (CHUNKED_CONTINUOUS_WINDOW_SCHEMA chunk_none_cfg) = false :=
  chunk_keys_exactly_one chunk_none_cfg rfl

/-- Concrete continuous configuration with only a window_size bound. -/
def cont_size_cfg : WindowConfig :=
  { window_size := some 10 }

/-- Concrete continuous configuration with only a window_duration bound. -/
def cont_duration_cfg : WindowConfig :=
  { window_duration := some 60000 }

/-- Concrete continuous configuration with both window bounds. -/
def cont_both_cfg : WindowConfig :=
  { window_size := some 10, window_duration := some 60000 }

/-- Concrete chunked continuous configuration with only a window_size
bound. -/
def chcont_size_cfg : WindowConfig :=
  { window_size := some 10, chunk_size := some 2 }

/-- Concrete chunked continuous configuration with only a window_duration
bound. -/
def chcont_duration_cfg : WindowConfig :=
  { window_duration := some 60000, chunk_duration := some 1000 }

/-- Concrete chunked continuous configuration with both window bounds. -/
def chcont_both_cfg : WindowConfig :=
  { window_size := some 10, window_duration := some 60000, chunk_size := some 2 }

/-- C4: the continuous and chunked_continuous window schemas reject every
configuration with neither window_size nor window_duration, while a
configuration with either bound alone, or with both, is accepted. -/
theorem window_bound_at_least_one :
    (∀ c : WindowConfig, c.window_size = none → c.window_duration = none →
      isOk (CONTINUOUS_WINDOW_SCHEMA c) = false ∧
      isOk (CHUNKED_CONTINUOUS_WINDOW_SCHEMA c) = false) ∧
    isOk (CONTINUOUS_WINDOW_SCHEMA cont_size_cfg) = true ∧
    isOk (CONTINUOUS_WINDOW_SCHEMA cont_duration_cfg) = true ∧
    isOk (CONTINUOUS_WINDOW_SCHEMA cont_both_cfg) = true ∧
    isOk (CHUNKED_CONTINUOUS_WINDOW_SCHEMA chcont_size_cfg) = true ∧
    isOk (CHUNKED_CONTINUOUS_WINDOW_SCHEMA chcont_duration_cfg) = true ∧
    isOk (CHUNKED_CONTINUOUS_WINDOW_SCHEMA chcont_both_cfg) = true := by
  refine ⟨?_, rfl, rfl, rfl, rfl, rfl, rfl⟩
  intro c h1 h2
  constructor
  · simp only [CONTINUOUS_WINDOW_SCHEMA, h1, h2]
    simp only [optionalKey_none, ok_bind]
    cases hse : optionalKeyD c.send_every 1 positive_int with
    | error e => simp
    | ok se =>
      simp only [ok_bind]
      cases hsfa : optionalKeyD c.send_first_at 1 positive_not_null_int with
      | error e => simp
      | ok sfa =>
        simp only [ok_bind]
        cases hv : validate_send_first_at { c with
            window_size := none,
            window_duration := none,
            send_every := some se,
            send_first_at := some sfa } with
        | error e => simp
        | ok validated =>
          simp only [ok_bind]
          rw [validate_send_first_at_ok_eq hv]
          rw [isOk_has_at_least_one_key]
          simp
  · simp only [CHUNKED_CONTINUOUS_WINDOW_SCHEMA, h1, h2]
    simp only [optionalKey_none, ok_bind]
    cases hcs : optionalKey c.chunk_size positive_not_null_int with
    | error e => simp
    | ok cs =>
      simp only [ok_bind]
      cases hcd : optionalKey c.chunk_duration time_period with
      | error e => simp
      | ok cd =>
        simp only [ok_bind]
        cases hse : optionalKeyD c.send_every 1 positive_int with
        | error e => simp
        | ok se =>
          simp only [ok_bind]
          cases hsfa : optionalKeyD c.send_first_at 1 positive_not_null_int with
          | error e => simp
          | ok sfa =>
            simp only [ok_bind]
            cases hr : optionalKey c.restore boolean with
            | error e => simp
            | ok r =>
              simp only [ok_bind]
              cases hv : validate_send_first_at { c with
                  window_size := none,
                  window_duration := none,
                  chunk_size := cs,
                  chunk_duration := cd,
                  send_every := some se,
                  send_first_at := some sfa,
                  restore := r } with
              | error e => simp
              | ok validated =>
                simp only [ok_bind]
                rw [validate_send_first_at_ok_eq hv]
                cases hal : has_at_least_one_key
                    ({ c with
                      window_size := none,
                      window_duration := none,
                      chunk_size := cs,
                      chunk_duration := cd,
                      send_every := some se,
                      send_first_at := some sfa,
                      restore := r } : WindowConfig).window_size.isSome
                    ({ c with
                      window_size := none,
                      window_duration := none,
                      chunk_size := cs,
                      chunk_duration := cd,
                      send_every := some se,
                      send_first_at := some sfa,
                      restore := r } : WindowConfig).window_duration.isSome
                    { c with
                      window_size := none,
                      window_duration := none,
                      chunk_size := cs,
                      chunk_duration := cd,
                      send_every := some se,
                      send_first_at := some sfa,
                      restore := r } with
                | error e => simp
                | ok validated2 =>
                  exact absurd hal (by
                    rw [has_at_least_one_key]
                    simp)

/-- C4 witness: both continuous schemas reject the concrete empty window
configuration, which has neither window bound. -/
theorem window_bound_at_least_one_witness :
    isOk (CONTINUOUS_WINDOW_SCHEMA {}) = false ∧
    isOk (CHUNKED_CONTINUOUS_WINDOW_SCHEMA {}) = false :=
  window_bound_at_least_one.1 {} rfl rfl

end Esphome
